import Mathlib

/-!
# Verification of the Kasa smart-home gateway (`kasa_smart_home_server.py`,
`client_kasa_workflow.py`)

A shallow embedding of the device-gateway logic: a single configured
smart-plug device, a process-wide cache slot holding at most one connection
handle (`kasa_plug_instance`), a resolver (`get_kasa_plug`) that refreshes a
cached handle or reconnects, and four operation wrappers
(`turn_kasa_device_on`, `turn_kasa_device_off`, `get_kasa_device_status`,
`list_kasa_devices`).

Network effects are modelled by an oracle: `World.oracle : Nat → Bool` gives
the success of each successive network interaction (a refresh or a power
command), consumed at index `World.tick`. The physical device carries a
power state `deviceOn` and a device-reported alias `deviceAlias`. The
counter `newConnections` counts constructions of a fresh handle (the
"counted new-connection side channel" of the spec). Exceptions raised by
the device library are modelled as `Except String`; the wrappers catch them
and turn them into `OpResult.failure` records, mirroring the `try/except`
blocks in the source.
-/

namespace Kasa

/-- The external world: the physical device plus the network oracle.
`oracle n` is the outcome (`true` = succeeds) of the `n`-th network
interaction; `tick` is the index of the next interaction. -/
structure World where
  deviceOn : Bool
  deviceAlias : String
  oracle : Nat → Bool
  tick : Nat
  newConnections : Nat

/-- A `SmartPlug` handle: configured host address plus the last-observed
device state (`alias` and `is_on` are populated by a successful
`update()`). -/
structure Plug where
  host : String
  al : String
  is_on : Bool
deriving DecidableEq

/-- Process configuration: `KASA_DEVICE_IP` and `KASA_DEVICE_ALIAS`
(`kasa_smart_home_server.py` lines 21-22). -/
structure Config where
  ip : String
  al : String

/-- The process-wide mutable state: the cache slot `kasa_plug_instance`
(line 32), holding `none` or one handle. -/
structure ServerState where
  cache : Option Plug
deriving DecidableEq

/-- `plug.update()`: one network round-trip; on success it repopulates the
handle's observed alias and power state from the device, on failure it
raises and leaves the handle unchanged. -/
def plugUpdate (p : Plug) (w : World) : Except String Plug × World :=
  if w.oracle w.tick then
    (Except.ok { p with al := w.deviceAlias, is_on := w.deviceOn },
     { w with tick := w.tick + 1 })
  else
    (Except.error "device unreachable", { w with tick := w.tick + 1 })

/-- `plug.turn_on()`: one network round-trip; on success the physical
device switches on. The handle's observed state is not refreshed (the
source follows the command with a separate `update()`). -/
def plugTurnOn (w : World) : Except String Unit × World :=
  if w.oracle w.tick then
    (Except.ok (), { w with tick := w.tick + 1, deviceOn := true })
  else
    (Except.error "command rejected", { w with tick := w.tick + 1 })

/-- `plug.turn_off()`: as `plugTurnOn`, switching the device off. -/
def plugTurnOff (w : World) : Except String Unit × World :=
  if w.oracle w.tick then
    (Except.ok (), { w with tick := w.tick + 1, deviceOn := false })
  else
    (Except.error "command rejected", { w with tick := w.tick + 1 })

/-- `SmartPlug(KASA_DEVICE_IP)` (line 51): constructing a fresh handle.
Construction itself does not touch the network, but it is the countable
"new connection" event, so it bumps `newConnections`. -/
def mkPlug (ip : String) (w : World) : Plug × World :=
  ({ host := ip, al := "", is_on := false },
   { w with newConnections := w.newConnections + 1 })

/-- Lines 49-60 of `get_kasa_plug`: construct a new handle, test it with an
initial `update()`; on success cache and return it, on failure leave the
cache slot as it is and return `none`. -/
def freshPlug (cfg : Config) (s : ServerState) (w : World) :
    Option Plug × ServerState × World :=
  let (p, w1) := mkPlug cfg.ip w
  match plugUpdate p w1 with
  | (Except.ok p2, w2) => (some p2, { cache := some p2 }, w2)
  | (Except.error _, w2) => (none, s, w2)

/-- `get_kasa_plug` (lines 34-60): if the cache slot holds a handle, try to
refresh it; on refresh success return it (the cached object is the same,
freshly refreshed, handle), on refresh failure invalidate the slot and fall
through to a fresh connection attempt. -/
def get_kasa_plug (cfg : Config) (s : ServerState) (w : World) :
    Option Plug × ServerState × World :=
  match s.cache with
  | some p =>
      match plugUpdate p w with
      | (Except.ok p2, w1) => (some p2, { cache := some p2 }, w1)
      | (Except.error _, w1) => freshPlug cfg { cache := none } w1
  | none => freshPlug cfg s w

/-- An operation result: the success dict
`{"alias": ..., "is_on": ..., "status": "success"}` or the error dict
`{"error": ...}`. No partial-success variant exists. -/
inductive OpResult where
  | success (al : String) (is_on : Bool)
  | failure (msg : String)
deriving DecidableEq

/-- The `{"alias", "is_on", "host"}` entry appended by
`list_kasa_devices` (line 145). -/
structure DeviceEntry where
  al : String
  is_on : Bool
  host : String
deriving DecidableEq

/-- The resolution-failure message of lines 87, 110, 132:
`Kasa device '<alias>' not found or unreachable.` -/
def unreachMsg (cfg : Config) : String :=
  "Kasa device '" ++ cfg.al ++ "' not found or unreachable."

/-- `turn_kasa_device_on` (lines 66-87): resolve, issue `turn_on`, refresh,
return the post-command state; every device error is caught and returned as
a failure record. A successful wrapper refresh updates the cached handle in
place (the cache aliases the same object). -/
def turn_kasa_device_on (cfg : Config) (s : ServerState) (w : World) :
    OpResult × ServerState × World :=
  match get_kasa_plug cfg s w with
  | (some p, s1, w1) =>
      match plugTurnOn w1 with
      | (Except.ok _, w2) =>
          match plugUpdate p w2 with
          | (Except.ok p2, w3) =>
              (OpResult.success p2.al p2.is_on, { cache := some p2 }, w3)
          | (Except.error e, w3) =>
              (OpResult.failure
                ("Failed to turn on device '" ++ p.al ++ "': " ++ e), s1, w3)
      | (Except.error e, w2) =>
          (OpResult.failure
            ("Failed to turn on device '" ++ p.al ++ "': " ++ e), s1, w2)
  | (none, s1, w1) => (OpResult.failure (unreachMsg cfg), s1, w1)

/-- `turn_kasa_device_off` (lines 89-110): as `turn_kasa_device_on` with
`turn_off`. -/
def turn_kasa_device_off (cfg : Config) (s : ServerState) (w : World) :
    OpResult × ServerState × World :=
  match get_kasa_plug cfg s w with
  | (some p, s1, w1) =>
      match plugTurnOff w1 with
      | (Except.ok _, w2) =>
          match plugUpdate p w2 with
          | (Except.ok p2, w3) =>
              (OpResult.success p2.al p2.is_on, { cache := some p2 }, w3)
          | (Except.error e, w3) =>
              (OpResult.failure
                ("Failed to turn off device '" ++ p.al ++ "': " ++ e), s1, w3)
      | (Except.error e, w2) =>
          (OpResult.failure
            ("Failed to turn off device '" ++ p.al ++ "': " ++ e), s1, w2)
  | (none, s1, w1) => (OpResult.failure (unreachMsg cfg), s1, w1)

/-- `get_kasa_device_status` (lines 112-132): resolve, refresh, return the
observed state; device errors become failure records. -/
def get_kasa_device_status (cfg : Config) (s : ServerState) (w : World) :
    OpResult × ServerState × World :=
  match get_kasa_plug cfg s w with
  | (some p, s1, w1) =>
      match plugUpdate p w1 with
      | (Except.ok p2, w2) =>
          (OpResult.success p2.al p2.is_on, { cache := some p2 }, w2)
      | (Except.error e, w2) =>
          (OpResult.failure
            ("Failed to get status for device '" ++ p.al ++ "': " ++ e), s1, w2)
  | (none, s1, w1) => (OpResult.failure (unreachMsg cfg), s1, w1)

/-- `list_kasa_devices` (lines 134-150): resolve; on success a one-element
list describing the device, on failure the empty list (never a failure
record). -/
def list_kasa_devices (cfg : Config) (s : ServerState) (w : World) :
    List DeviceEntry × ServerState × World :=
  match get_kasa_plug cfg s w with
  | (some p, s1, w1) => ([⟨p.al, p.is_on, p.host⟩], s1, w1)
  | (none, s1, w1) => ([], s1, w1)

/-- Startup of the client (`client_kasa_workflow.py` lines 21-26): read
`GROQ_API_KEY`; if it is unset or empty (Python falsiness of
`not groq_api_key`), exit with code 1, otherwise continue with the key. -/
def client_startup (env : String → Option String) : Except Nat String :=
  match env "GROQ_API_KEY" with
  | none => Except.error 1
  | some k => if k = "" then Except.error 1 else Except.ok k

/-- Startup of the server (`kasa_smart_home_server.py` lines 18-32): read
`KASA_DEVICE_IP` from the environment and proceed; the source performs no
presence check and has no exit path for a missing address. -/
def server_startup (env : String → Option String) :
    Except Nat (Option String × String) :=
  Except.ok (env "KASA_DEVICE_IP", "Outdoor plug")

/-- A fixed concrete world used by witnesses: device on, alias
`Outdoor plug`, oracle given as a function. -/
def mkWorld (o : Nat → Bool) : World :=
  { deviceOn := true, deviceAlias := "Outdoor plug", oracle := o,
    tick := 0, newConnections := 0 }

/-- The scenario configuration of §8 of the spec. -/
def cfg0 : Config := { ip := "10.0.0.5", al := "Outdoor plug" }

/-- A concrete handle matching `cfg0` and a refreshed observation. -/
def plug0 : Plug := { host := "10.0.0.5", al := "Outdoor plug", is_on := true }

/-! ## Path lemmas for the resolver -/

lemma freshPlug_ok (cfg : Config) (s : ServerState) (w : World)
    (h : w.oracle w.tick = true) :
    freshPlug cfg s w =
      (some ⟨cfg.ip, w.deviceAlias, w.deviceOn⟩,
       ⟨some ⟨cfg.ip, w.deviceAlias, w.deviceOn⟩⟩,
       { w with tick := w.tick + 1, newConnections := w.newConnections + 1 }) := by
  simp [freshPlug, mkPlug, plugUpdate, h]

lemma freshPlug_fail (cfg : Config) (s : ServerState) (w : World)
    (h : w.oracle w.tick = false) :
    freshPlug cfg s w =
      (none, s,
       { w with tick := w.tick + 1, newConnections := w.newConnections + 1 }) := by
  simp [freshPlug, mkPlug, plugUpdate, h]

lemma get_kasa_plug_cached_ok (cfg : Config) (s : ServerState) (w : World)
    (p : Plug) (hc : s.cache = some p) (h : w.oracle w.tick = true) :
    get_kasa_plug cfg s w =
      (some ⟨p.host, w.deviceAlias, w.deviceOn⟩,
       ⟨some ⟨p.host, w.deviceAlias, w.deviceOn⟩⟩,
       { w with tick := w.tick + 1 }) := by
  simp [get_kasa_plug, hc, plugUpdate, h]

lemma get_kasa_plug_cached_fail (cfg : Config) (s : ServerState) (w : World)
    (p : Plug) (hc : s.cache = some p) (h : w.oracle w.tick = false) :
    get_kasa_plug cfg s w = freshPlug cfg ⟨none⟩ { w with tick := w.tick + 1 } := by
  simp [get_kasa_plug, hc, plugUpdate, h]

lemma get_kasa_plug_nocache (cfg : Config) (s : ServerState) (w : World)
    (hc : s.cache = none) :
    get_kasa_plug cfg s w = freshPlug cfg s w := by
  simp [get_kasa_plug, hc]

/-- Resolution never touches the physical device or the oracle: no power
command is issued, only refreshes. -/
lemma get_kasa_plug_frame (cfg : Config) (s : ServerState) (w : World) :
    (get_kasa_plug cfg s w).2.2.deviceOn = w.deviceOn ∧
    (get_kasa_plug cfg s w).2.2.deviceAlias = w.deviceAlias ∧
    (get_kasa_plug cfg s w).2.2.oracle = w.oracle := by
  cases hc : s.cache with
  | none =>
      rw [get_kasa_plug_nocache cfg s w hc]
      cases h : w.oracle w.tick with
      | true => rw [freshPlug_ok cfg s w h]; exact ⟨rfl, rfl, rfl⟩
      | false => rw [freshPlug_fail cfg s w h]; exact ⟨rfl, rfl, rfl⟩
  | some p =>
      cases h : w.oracle w.tick with
      | true => rw [get_kasa_plug_cached_ok cfg s w p hc h]; exact ⟨rfl, rfl, rfl⟩
      | false =>
          rw [get_kasa_plug_cached_fail cfg s w p hc h]
          cases h2 : w.oracle (w.tick + 1) with
          | true =>
              rw [freshPlug_ok _ _ _ (by simpa using h2)]
              exact ⟨rfl, rfl, rfl⟩
          | false =>
              rw [freshPlug_fail _ _ _ (by simpa using h2)]
              exact ⟨rfl, rfl, rfl⟩

/-! ## Claim theorems -/

/-- C2. After a successful call left a handle in the cache slot, the next
resolution (itself successful) reuses the cached handle without
constructing a new connection — `newConnections` is unchanged — if and only
if the refresh of the cached handle succeeds; on refresh failure a new
handle is constructed. -/
theorem resolve_reuses_cache_iff_refresh_ok (cfg : Config) (s : ServerState)
    (w : World) (p : Plug) (hc : s.cache = some p)
    (_hok : ((get_kasa_plug cfg s w).1).isSome = true) :
    ((get_kasa_plug cfg s w).2.2.newConnections = w.newConnections ↔
      w.oracle w.tick = true) := by
  cases h : w.oracle w.tick with
  | true => rw [get_kasa_plug_cached_ok cfg s w p hc h]; simp
  | false =>
      rw [get_kasa_plug_cached_fail cfg s w p hc h]
      cases h2 : w.oracle (w.tick + 1) with
      | true => rw [freshPlug_ok _ _ _ (by simpa using h2)]; simp
      | false => rw [freshPlug_fail _ _ _ (by simpa using h2)]; simp

/-- Witness for C2: with a cached handle and an always-succeeding oracle,
the resolver's reuse is equivalent to the refresh succeeding. -/
theorem resolve_reuses_cache_iff_refresh_ok_witness :
    ((get_kasa_plug cfg0 ⟨some plug0⟩ (mkWorld (fun _ => true))).2.2.newConnections
        = (mkWorld (fun _ => true)).newConnections ↔
      (mkWorld (fun _ => true)).oracle (mkWorld (fun _ => true)).tick = true) :=
  resolve_reuses_cache_iff_refresh_ok cfg0 ⟨some plug0⟩ (mkWorld (fun _ => true))
    plug0 rfl rfl

/-- C3. When the cached handle's refresh fails, the failure is not
surfaced: within the same resolution the slot is invalidated and a fresh
connection is attempted, and if the device is reachable for that fresh
attempt the resolution returns a (newly constructed, newly cached)
handle. -/
theorem refresh_failure_retries_fresh (cfg : Config) (s : ServerState)
    (w : World) (p : Plug) (hc : s.cache = some p)
    (hf : w.oracle w.tick = false)
    (hs : ∀ n, w.tick + 1 ≤ n → w.oracle n = true) :
    (get_kasa_plug cfg s w).1 = some ⟨cfg.ip, w.deviceAlias, w.deviceOn⟩ ∧
    (get_kasa_plug cfg s w).2.1.cache = some ⟨cfg.ip, w.deviceAlias, w.deviceOn⟩ ∧
    (get_kasa_plug cfg s w).2.2.newConnections = w.newConnections + 1 ∧
    (get_kasa_device_status cfg s w).1 =
      OpResult.success w.deviceAlias w.deviceOn := by
  have h1 : w.oracle (w.tick + 1) = true := hs _ (Nat.le_refl _)
  have h2 : w.oracle (w.tick + 1 + 1) = true := hs _ (by omega)
  refine ⟨?_, ?_, ?_, ?_⟩
  · rw [get_kasa_plug_cached_fail cfg s w p hc hf,
      freshPlug_ok _ _ _ (by simpa using h1)]
  · rw [get_kasa_plug_cached_fail cfg s w p hc hf,
      freshPlug_ok _ _ _ (by simpa using h1)]
  · rw [get_kasa_plug_cached_fail cfg s w p hc hf,
      freshPlug_ok _ _ _ (by simpa using h1)]
  · simp [get_kasa_device_status, get_kasa_plug, hc, freshPlug, mkPlug,
      plugUpdate, hf, h1, h2]

/-- Witness for C3: cached handle, refresh fails at tick 0, device
reachable from tick 1 on — resolution succeeds with a fresh handle and the
status operation succeeds overall. -/
theorem refresh_failure_retries_fresh_witness :
    (get_kasa_plug cfg0 ⟨some plug0⟩ (mkWorld (fun n => n != 0))).1 =
      some ⟨cfg0.ip, (mkWorld (fun n => n != 0)).deviceAlias,
        (mkWorld (fun n => n != 0)).deviceOn⟩ ∧
    (get_kasa_plug cfg0 ⟨some plug0⟩ (mkWorld (fun n => n != 0))).2.1.cache =
      some ⟨cfg0.ip, (mkWorld (fun n => n != 0)).deviceAlias,
        (mkWorld (fun n => n != 0)).deviceOn⟩ ∧
    (get_kasa_plug cfg0 ⟨some plug0⟩ (mkWorld (fun n => n != 0))).2.2.newConnections =
      (mkWorld (fun n => n != 0)).newConnections + 1 ∧
    (get_kasa_device_status cfg0 ⟨some plug0⟩ (mkWorld (fun n => n != 0))).1 =
      OpResult.success (mkWorld (fun n => n != 0)).deviceAlias
        (mkWorld (fun n => n != 0)).deviceOn :=
  refresh_failure_retries_fresh cfg0 ⟨some plug0⟩ (mkWorld (fun n => n != 0))
    plug0 rfl rfl
    (fun n hn => by
      cases n with
      | zero => exact absurd hn (by decide)
      | succ m => rfl)

/-- C4. After any resolution, the cache slot is either empty (and the
resolution failed) or holds exactly the handle the resolution returned,
whose observation was refreshed successfully at caching time: its alias
and power state are the device's actual values. -/
theorem cache_slot_invariant (cfg : Config) (s : ServerState) (w : World) :
    ((get_kasa_plug cfg s w).1 = none ∧ (get_kasa_plug cfg s w).2.1.cache = none) ∨
    (∃ p, (get_kasa_plug cfg s w).1 = some p ∧
      (get_kasa_plug cfg s w).2.1.cache = some p ∧
      p.is_on = w.deviceOn ∧ p.al = w.deviceAlias) := by
  cases hc : s.cache with
  | none =>
      rw [get_kasa_plug_nocache cfg s w hc]
      cases h : w.oracle w.tick with
      | true =>
          rw [freshPlug_ok cfg s w h]
          exact Or.inr ⟨_, rfl, rfl, rfl, rfl⟩
      | false => rw [freshPlug_fail cfg s w h]; exact Or.inl ⟨rfl, hc⟩
  | some p =>
      cases h : w.oracle w.tick with
      | true =>
          rw [get_kasa_plug_cached_ok cfg s w p hc h]
          exact Or.inr ⟨_, rfl, rfl, rfl, rfl⟩
      | false =>
          rw [get_kasa_plug_cached_fail cfg s w p hc h]
          cases h2 : w.oracle (w.tick + 1) with
          | true =>
              rw [freshPlug_ok _ _ _ (by simpa using h2)]
              exact Or.inr ⟨_, rfl, rfl, rfl, rfl⟩
          | false =>
              rw [freshPlug_fail _ _ _ (by simpa using h2)]
              exact Or.inl ⟨rfl, rfl⟩

/-- C1. Every failing device interaction is converted into a returned
failure record at the operation boundary (the `try/except` blocks of the
wrappers and of `get_kasa_plug`): with the device unreachable throughout,
every operation returns the unreachable-failure record — `listDevices`
returns the empty list — and when the refresh succeeds but the power
command is rejected, the wrapper returns a command-failure record. In the
embedding every wrapper is a total function into `OpResult`, so no
exception escapes the boundary and the serving process continues. -/
theorem ops_fail_closed (cfg : Config) (s : ServerState) (w : World) :
    ((∀ n, w.oracle n = false) →
      (turn_kasa_device_on cfg s w).1 = OpResult.failure (unreachMsg cfg) ∧
      (turn_kasa_device_off cfg s w).1 = OpResult.failure (unreachMsg cfg) ∧
      (get_kasa_device_status cfg s w).1 = OpResult.failure (unreachMsg cfg) ∧
      (list_kasa_devices cfg s w).1 = []) ∧
    (∀ p, s.cache = some p → w.oracle w.tick = true →
      w.oracle (w.tick + 1) = false →
      (turn_kasa_device_on cfg s w).1 = OpResult.failure
        ("Failed to turn on device '" ++ w.deviceAlias ++ "': command rejected")) := by
  constructor
  · intro h
    cases hc : s.cache <;>
      simp [turn_kasa_device_on, turn_kasa_device_off, get_kasa_device_status,
        list_kasa_devices, get_kasa_plug, freshPlug, mkPlug, plugUpdate, hc, h]
  · intro p hc h1 h2
    rw [turn_kasa_device_on, get_kasa_plug_cached_ok cfg s w p hc h1]
    simp only [plugTurnOn, h2, Bool.false_eq_true, if_false]
    rw [String.append_assoc]
    rfl

/-- Witness for C1: at the §8 configuration, with an unreachable device
every operation fails closed, and with a refresh-then-reject oracle the
power command failure is returned as a record. -/
theorem ops_fail_closed_witness :
    ((turn_kasa_device_on cfg0 ⟨none⟩ (mkWorld (fun _ => false))).1 =
        OpResult.failure (unreachMsg cfg0) ∧
      (list_kasa_devices cfg0 ⟨none⟩ (mkWorld (fun _ => false))).1 = []) ∧
    (turn_kasa_device_on cfg0 ⟨some plug0⟩ (mkWorld (fun n => n == 0))).1 =
      OpResult.failure
        ("Failed to turn on device '" ++
          (mkWorld (fun n => n == 0)).deviceAlias ++ "': command rejected") := by
  have h1 := (ops_fail_closed cfg0 ⟨none⟩ (mkWorld (fun _ => false))).1
    (fun _ => rfl)
  have h2 := (ops_fail_closed cfg0 ⟨some plug0⟩ (mkWorld (fun n => n == 0))).2
    plug0 rfl rfl rfl
  exact ⟨⟨h1.1, h1.2.2.2⟩, h2⟩

/-- C5 (amended). When the fresh connect-and-refresh fails, the cache slot
is left empty and resolution signals failure; the operations then return
the fixed unreachable-failure record naming the configured alias. The
configured address and the underlying cause appear only in logging, not in
the returned record. -/
theorem connect_failure_leaves_cache_empty (cfg : Config) (s : ServerState)
    (w : World) (h : ∀ n, w.oracle n = false) :
    (get_kasa_plug cfg s w).1 = none ∧
    (get_kasa_plug cfg s w).2.1.cache = none ∧
    (turn_kasa_device_on cfg s w).1 = OpResult.failure (unreachMsg cfg) ∧
    (get_kasa_device_status cfg s w).1 = OpResult.failure (unreachMsg cfg) := by
  cases hc : s.cache <;>
    simp [turn_kasa_device_on, get_kasa_device_status, get_kasa_plug,
      freshPlug, mkPlug, plugUpdate, hc, h]

/-- Witness for C5 (amended): concrete unreachable scenario at `cfg0`. -/
theorem connect_failure_leaves_cache_empty_witness :
    (get_kasa_plug cfg0 ⟨some plug0⟩ (mkWorld (fun _ => false))).2.1.cache = none ∧
    (turn_kasa_device_on cfg0 ⟨some plug0⟩ (mkWorld (fun _ => false))).1 =
      OpResult.failure (unreachMsg cfg0) :=
  ⟨(connect_failure_leaves_cache_empty cfg0 ⟨some plug0⟩
      (mkWorld (fun _ => false)) (fun _ => rfl)).2.1,
   (connect_failure_leaves_cache_empty cfg0 ⟨some plug0⟩
      (mkWorld (fun _ => false)) (fun _ => rfl)).2.2.1⟩

/-- Counterexample to C5 as stated: the failure record returned to the
caller on a failed fresh connection is a fixed message naming only the
configured alias — it is identical for two different configured addresses
and does not contain the address `10.0.0.5` (nor any underlying-cause
text). -/
theorem connect_failure_msg_lacks_address :
    (turn_kasa_device_on ⟨"10.0.0.5", "Outdoor plug"⟩ ⟨none⟩
        (mkWorld (fun _ => false))).1 =
      (turn_kasa_device_on ⟨"192.168.1.7", "Outdoor plug"⟩ ⟨none⟩
        (mkWorld (fun _ => false))).1 ∧
    (turn_kasa_device_on ⟨"10.0.0.5", "Outdoor plug"⟩ ⟨none⟩
        (mkWorld (fun _ => false))).1 =
      OpResult.failure "Kasa device 'Outdoor plug' not found or unreachable." ∧
    ¬ List.IsInfix ("10.0.0.5".toList)
        ("Kasa device 'Outdoor plug' not found or unreachable.".toList) :=
  ⟨rfl, rfl, by decide⟩

/-- C6 (amended). `listDevices` returns the empty list exactly when
resolution fails (never a failure record), and on success exactly one
entry: the device-reported alias, the observed power state, and the
configured address. The alias in the entry is the one the device reports,
which coincides with the configured alias only when the two match. -/
theorem list_devices_spec (cfg : Config) (s : ServerState) (w : World)
    (hwf : ∀ p, s.cache = some p → p.host = cfg.ip) :
    ((get_kasa_plug cfg s w).1 = none ∧ (list_kasa_devices cfg s w).1 = []) ∨
    (list_kasa_devices cfg s w).1 = [⟨w.deviceAlias, w.deviceOn, cfg.ip⟩] := by
  cases hc : s.cache with
  | none =>
      cases h : w.oracle w.tick with
      | true =>
          refine Or.inr ?_
          simp [list_kasa_devices, get_kasa_plug_nocache cfg s w hc,
            freshPlug_ok cfg s w h]
      | false =>
          refine Or.inl ⟨?_, ?_⟩ <;>
            simp [list_kasa_devices, get_kasa_plug_nocache cfg s w hc,
              freshPlug_fail cfg s w h]
  | some p =>
      cases h : w.oracle w.tick with
      | true =>
          refine Or.inr ?_
          simp [list_kasa_devices, get_kasa_plug_cached_ok cfg s w p hc h,
            hwf p hc]
      | false =>
          cases h2 : w.oracle (w.tick + 1) with
          | true =>
              refine Or.inr ?_
              simp [list_kasa_devices, get_kasa_plug_cached_fail cfg s w p hc h,
                freshPlug_ok cfg (⟨none⟩ : ServerState)
                  { w with tick := w.tick + 1 } (by simpa using h2)]
          | false =>
              refine Or.inl ⟨?_, ?_⟩ <;>
                simp [list_kasa_devices, get_kasa_plug_cached_fail cfg s w p hc h,
                  freshPlug_fail cfg (⟨none⟩ : ServerState)
                    { w with tick := w.tick + 1 } (by simpa using h2)]

/-- Witness for C6 (amended): on the §8 scenario with an empty cache and a
reachable device, `listDevices` returns the single expected entry. -/
theorem list_devices_spec_witness :
    ((get_kasa_plug cfg0 ⟨none⟩ (mkWorld (fun _ => true))).1 = none ∧
      (list_kasa_devices cfg0 ⟨none⟩ (mkWorld (fun _ => true))).1 = []) ∨
    (list_kasa_devices cfg0 ⟨none⟩ (mkWorld (fun _ => true))).1 =
      [⟨(mkWorld (fun _ => true)).deviceAlias,
        (mkWorld (fun _ => true)).deviceOn, cfg0.ip⟩] :=
  list_devices_spec cfg0 ⟨none⟩ (mkWorld (fun _ => true))
    (fun p hp => by cases hp)

/-- Counterexample to C6 as stated: when the device reports an alias
different from the configured one, the single entry carries the
device-reported alias `Garage`, not the configured alias
`Outdoor plug`. -/
theorem list_reports_device_alias :
    (list_kasa_devices cfg0 ⟨none⟩
        { mkWorld (fun _ => true) with deviceAlias := "Garage" }).1 =
      [⟨"Garage", true, "10.0.0.5"⟩] ∧
    cfg0.al = "Outdoor plug" ∧ ("Garage" : String) ≠ "Outdoor plug" :=
  ⟨rfl, rfl, by decide⟩

/-! ## All-interactions-succeed lemmas for the wrappers -/

lemma status_allTrue (cfg : Config) (s : ServerState) (w : World)
    (h : ∀ n, w.oracle n = true) :
    (get_kasa_device_status cfg s w).1 =
      OpResult.success w.deviceAlias w.deviceOn := by
  cases hc : s.cache <;>
    simp [get_kasa_device_status, get_kasa_plug, freshPlug, mkPlug,
      plugUpdate, hc, h]

lemma turn_on_allTrue (cfg : Config) (s : ServerState) (w : World)
    (h : ∀ n, w.oracle n = true) :
    (turn_kasa_device_on cfg s w).1 = OpResult.success w.deviceAlias true ∧
    (turn_kasa_device_on cfg s w).2.2.oracle = w.oracle ∧
    (turn_kasa_device_on cfg s w).2.2.deviceOn = true ∧
    (turn_kasa_device_on cfg s w).2.2.deviceAlias = w.deviceAlias := by
  cases hc : s.cache <;>
    simp [turn_kasa_device_on, get_kasa_plug, freshPlug, mkPlug,
      plugUpdate, plugTurnOn, hc, h]

lemma turn_off_allTrue (cfg : Config) (s : ServerState) (w : World)
    (h : ∀ n, w.oracle n = true) :
    (turn_kasa_device_off cfg s w).1 = OpResult.success w.deviceAlias false ∧
    (turn_kasa_device_off cfg s w).2.2.oracle = w.oracle ∧
    (turn_kasa_device_off cfg s w).2.2.deviceOn = false ∧
    (turn_kasa_device_off cfg s w).2.2.deviceAlias = w.deviceAlias := by
  cases hc : s.cache <;>
    simp [turn_kasa_device_off, get_kasa_plug, freshPlug, mkPlug,
      plugUpdate, plugTurnOff, hc, h]

/-- C7. For a device reachable throughout (every network interaction
succeeds), `setPower(true)` followed by `getStatus()` returns success
records with `is_on = true`, and `setPower(false)` followed by
`getStatus()` returns success records with `is_on = false`. -/
theorem set_then_get_agrees (cfg : Config) (s : ServerState) (w : World)
    (h : ∀ n, w.oracle n = true) :
    (turn_kasa_device_on cfg s w).1 = OpResult.success w.deviceAlias true ∧
    (get_kasa_device_status cfg (turn_kasa_device_on cfg s w).2.1
        (turn_kasa_device_on cfg s w).2.2).1 =
      OpResult.success w.deviceAlias true ∧
    (turn_kasa_device_off cfg s w).1 = OpResult.success w.deviceAlias false ∧
    (get_kasa_device_status cfg (turn_kasa_device_off cfg s w).2.1
        (turn_kasa_device_off cfg s w).2.2).1 =
      OpResult.success w.deviceAlias false := by
  obtain ⟨hr1, ho1, hd1, ha1⟩ := turn_on_allTrue cfg s w h
  obtain ⟨hr2, ho2, hd2, ha2⟩ := turn_off_allTrue cfg s w h
  have h1 : ∀ n, (turn_kasa_device_on cfg s w).2.2.oracle n = true := by
    intro n; rw [ho1]; exact h n
  have h2 : ∀ n, (turn_kasa_device_off cfg s w).2.2.oracle n = true := by
    intro n; rw [ho2]; exact h n
  have hs1 := status_allTrue cfg (turn_kasa_device_on cfg s w).2.1
    (turn_kasa_device_on cfg s w).2.2 h1
  have hs2 := status_allTrue cfg (turn_kasa_device_off cfg s w).2.1
    (turn_kasa_device_off cfg s w).2.2 h2
  rw [ha1, hd1] at hs1
  rw [ha2, hd2] at hs2
  exact ⟨hr1, hs1, hr2, hs2⟩

/-- Witness for C7: the §8 scenario with a fully reachable device. -/
theorem set_then_get_agrees_witness :
    (turn_kasa_device_on cfg0 ⟨none⟩ (mkWorld (fun _ => true))).1 =
      OpResult.success (mkWorld (fun _ => true)).deviceAlias true ∧
    (get_kasa_device_status cfg0
        (turn_kasa_device_on cfg0 ⟨none⟩ (mkWorld (fun _ => true))).2.1
        (turn_kasa_device_on cfg0 ⟨none⟩ (mkWorld (fun _ => true))).2.2).1 =
      OpResult.success (mkWorld (fun _ => true)).deviceAlias true ∧
    (turn_kasa_device_off cfg0 ⟨none⟩ (mkWorld (fun _ => true))).1 =
      OpResult.success (mkWorld (fun _ => true)).deviceAlias false ∧
    (get_kasa_device_status cfg0
        (turn_kasa_device_off cfg0 ⟨none⟩ (mkWorld (fun _ => true))).2.1
        (turn_kasa_device_off cfg0 ⟨none⟩ (mkWorld (fun _ => true))).2.2).1 =
      OpResult.success (mkWorld (fun _ => true)).deviceAlias false :=
  set_then_get_agrees cfg0 ⟨none⟩ (mkWorld (fun _ => true)) (fun _ => rfl)

/-- C8 (amended). The client exits with code 1 when its required
credential `GROQ_API_KEY` is absent (or empty, by Python falsiness); the
server performs no startup check on `KASA_DEVICE_IP` and never exits at
startup, whatever the environment. -/
theorem startup_config_check (env env2 : String → Option String)
    (h : env "GROQ_API_KEY" = none ∨ env "GROQ_API_KEY" = some "") :
    client_startup env = Except.error 1 ∧
    server_startup env2 = Except.ok (env2 "KASA_DEVICE_IP", "Outdoor plug") := by
  refine ⟨?_, rfl⟩
  rcases h with h | h <;> simp [client_startup, h]

/-- Witness for C8 (amended): an empty environment. -/
theorem startup_config_check_witness :
    client_startup (fun _ => none) = Except.error 1 ∧
    server_startup (fun _ => none) = Except.ok (none, "Outdoor plug") :=
  startup_config_check (fun _ => none) (fun _ => none) (Or.inl rfl)

/-- Counterexample to C8 as stated: with the device network address
`KASA_DEVICE_IP` absent from the environment, the server's startup does
not exit — it proceeds with an absent address. -/
theorem server_missing_address_no_exit :
    server_startup (fun _ => none) = Except.ok (none, "Outdoor plug") ∧
    (server_startup (fun _ => none)).isOk = true :=
  ⟨rfl, rfl⟩

/-- C9. `getStatus` never mutates the device: in every case the physical
power state after the call equals the one before, and a success record
reports exactly the pre-call device state. -/
theorem status_no_mutation (cfg : Config) (s : ServerState) (w : World) :
    (get_kasa_device_status cfg s w).2.2.deviceOn = w.deviceOn ∧
    (∀ a b, (get_kasa_device_status cfg s w).1 = OpResult.success a b →
      b = w.deviceOn) := by
  have hOn0 := (get_kasa_plug_frame cfg s w).1
  rcases hres : get_kasa_plug cfg s w with ⟨r, s1, w1⟩
  rw [hres] at hOn0
  cases r with
  | none =>
      constructor
      · simp [get_kasa_device_status, hres]; exact hOn0
      · intro a b hab
        simp [get_kasa_device_status, hres] at hab
  | some p =>
      cases h2 : w1.oracle w1.tick with
      | true =>
          constructor
          · simp [get_kasa_device_status, hres, plugUpdate, h2]; exact hOn0
          · intro a b hab
            simp [get_kasa_device_status, hres, plugUpdate, h2] at hab
            rw [← hab.2]; exact hOn0
      | false =>
          constructor
          · simp [get_kasa_device_status, hres, plugUpdate, h2]; exact hOn0
          · intro a b hab
            simp [get_kasa_device_status, hres, plugUpdate, h2] at hab

/-- Witness for C9: concrete reachable scenario; the status call leaves
the device state `true` untouched and reports it. -/
theorem status_no_mutation_witness :
    (get_kasa_device_status cfg0 ⟨none⟩ (mkWorld (fun _ => true))).2.2.deviceOn =
      (mkWorld (fun _ => true)).deviceOn ∧
    (true : Bool) = (mkWorld (fun _ => true)).deviceOn :=
  ⟨(status_no_mutation cfg0 ⟨none⟩ (mkWorld (fun _ => true))).1,
   (status_no_mutation cfg0 ⟨none⟩ (mkWorld (fun _ => true))).2
     "Outdoor plug" true rfl⟩

/-- A successful resolution leaves exactly the returned handle in the
cache slot. -/
lemma resolver_result_cache (cfg : Config) (s : ServerState) (w : World)
    (p : Plug) (h : (get_kasa_plug cfg s w).1 = some p) :
    (get_kasa_plug cfg s w).2.1 = ⟨some p⟩ := by
  cases hc : s.cache with
  | none =>
      rw [get_kasa_plug_nocache cfg s w hc] at h ⊢
      cases ho : w.oracle w.tick with
      | true =>
          rw [freshPlug_ok cfg s w ho] at h ⊢
          simp at h
          simp [h]
      | false => rw [freshPlug_fail cfg s w ho] at h; simp at h
  | some q =>
      cases ho : w.oracle w.tick with
      | true =>
          rw [get_kasa_plug_cached_ok cfg s w q hc ho] at h ⊢
          simp at h
          simp [h]
      | false =>
          rw [get_kasa_plug_cached_fail cfg s w q hc ho] at h ⊢
          cases ho2 : w.oracle (w.tick + 1) with
          | true =>
              rw [freshPlug_ok _ _ _ (by simpa using ho2)] at h ⊢
              simp at h
              simp [h]
          | false =>
              rw [freshPlug_fail _ _ _ (by simpa using ho2)] at h
              simp at h

/-- C10. Cache invalidation happens only inside resolution: when
resolution succeeds (leaving the handle in the slot) but the wrapper's own
command or refresh then fails, the wrapper returns a failure record and the
cache slot still holds that same handle. -/
theorem wrapper_failure_keeps_cache (cfg : Config) (s : ServerState)
    (w : World) (p : Plug) (s1 : ServerState) (w1 : World)
    (hres : get_kasa_plug cfg s w = (some p, s1, w1)) :
    s1.cache = some p ∧
    (w1.oracle w1.tick = false →
      (get_kasa_device_status cfg s w).1 = OpResult.failure
        ("Failed to get status for device '" ++ p.al ++ "': " ++
          "device unreachable") ∧
      (get_kasa_device_status cfg s w).2.1 = s1 ∧
      (turn_kasa_device_on cfg s w).1 = OpResult.failure
        ("Failed to turn on device '" ++ p.al ++ "': " ++
          "command rejected") ∧
      (turn_kasa_device_on cfg s w).2.1 = s1 ∧
      (turn_kasa_device_off cfg s w).1 = OpResult.failure
        ("Failed to turn off device '" ++ p.al ++ "': " ++
          "command rejected") ∧
      (turn_kasa_device_off cfg s w).2.1 = s1) ∧
    (w1.oracle w1.tick = true → w1.oracle (w1.tick + 1) = false →
      (turn_kasa_device_on cfg s w).1 = OpResult.failure
        ("Failed to turn on device '" ++ p.al ++ "': " ++
          "device unreachable") ∧
      (turn_kasa_device_on cfg s w).2.1 = s1) := by
  refine ⟨?_, ?_, ?_⟩
  · have h1 : (get_kasa_plug cfg s w).1 = some p := by rw [hres]
    have h2 := resolver_result_cache cfg s w p h1
    rw [hres] at h2
    simp at h2
    simp [h2]
  · intro hf
    refine ⟨?_, ?_, ?_, ?_, ?_, ?_⟩ <;>
      simp [get_kasa_device_status, turn_kasa_device_on, turn_kasa_device_off,
        hres, plugUpdate, plugTurnOn, plugTurnOff, hf]
  · intro ht hf
    constructor <;>
      simp [turn_kasa_device_on, hres, plugUpdate, plugTurnOn, ht, hf]

/-- Witness for C10: cached handle refreshed successfully at tick 0, next
interaction fails — the status wrapper fails but the slot keeps the
handle. -/
theorem wrapper_failure_keeps_cache_witness :
    (get_kasa_device_status cfg0 ⟨some plug0⟩ (mkWorld (fun n => n == 0))).2.1 =
      (⟨some plug0⟩ : ServerState) :=
  ((wrapper_failure_keeps_cache cfg0 ⟨some plug0⟩ (mkWorld (fun n => n == 0))
      plug0 ⟨some plug0⟩
      { mkWorld (fun n => n == 0) with tick := 1 } rfl).2.1 rfl).2.1

end Kasa
